import Mathlib

/-!
# Verification of the cycle-prediction engine and reminder evaluator

Shallow embedding of the TypeScript prediction library (`predictCycle` and its
helpers), its duplicated serverless copy, and the reminder due-check /
message-composition functions, together with proofs of the specified
properties.

Modelling conventions:
* Calendar dates are integers (epoch day numbers).  All date strings in the
  source denote whole days (`YYYY-MM-DD`), so `new Date(...)` differences in
  milliseconds divided by 86 400 000 are exact integer day differences, and
  `addDays` is integer addition.
* JavaScript numbers are modelled as real numbers, except where IEEE special
  values are observable: the unguarded division `stdDev / average` yields
  `NaN` when both are `0`, and `NaN` survives `Math.min`/`Math.max`/
  `Math.round`.  Confidence is therefore an `Option ℝ` whose `none` denotes
  `NaN`; the division's special cases are modelled explicitly in
  `clampConfidence`.
* `Math.round x` is `⌊x + 1/2⌋` (round half toward `+∞`), as in JS.
* `Array.prototype.sort` with comparator `(a, b) => a.date - b.date` is a
  stable ascending sort; it is modelled by `List.insertionSort` on the date
  order, which is likewise stable and ascending.
* The current clock (`new Date()` inside pure functions) is passed as an
  explicit `today : ℤ` parameter.
-/

/-- JS `Math.round`: round half toward positive infinity. -/
noncomputable def jsRound (x : ℝ) : ℤ := ⌊x + 1/2⌋

/-- `Math.round (x * 100) / 100`: rounding to two decimal places. -/
noncomputable def round2 (x : ℝ) : ℝ := (jsRound (x * 100) : ℝ) / 100

/-- A cycle-log entry: `{ entry_date: string; flow_intensity: string | null }`. -/
structure CycleEntry where
  entry_date : ℤ
  flow_intensity : Option String
deriving DecidableEq, Repr

/-- `{ cycle_length_days: number; period_length_days: number }`. -/
structure UserProfile where
  cycle_length_days : ℤ
  period_length_days : ℤ
deriving DecidableEq, Repr

/-- The `source` tag of a prediction. -/
inductive Source where
  | historical
  | profile_default
  | hybrid
deriving DecidableEq, Repr

/-- The `metadata` field of a `PredictionResult`. -/
structure Metadata where
  cycles_analyzed : ℕ
  average_cycle_length : Option ℝ
  std_deviation : Option ℝ

/-- The result record of `predictCycle`.  `confidence = none` models a `NaN`
confidence (see `clampConfidence`). -/
structure PredictionResult where
  next_period_start : ℤ
  next_period_end : ℤ
  fertility_window_start : ℤ
  fertility_window_end : ℤ
  confidence : Option ℝ
  source : Source
  metadata : Metadata

/-- The sort key used by `identifyCycleStarts`'s comparator. -/
def dateLE (a b : CycleEntry) : Prop := a.entry_date ≤ b.entry_date

instance : DecidableRel dateLE := fun a b =>
  inferInstanceAs (Decidable (a.entry_date ≤ b.entry_date))

instance : IsTotal CycleEntry dateLE := ⟨fun a b => Int.le_total a.entry_date b.entry_date⟩

instance : IsTrans CycleEntry dateLE := ⟨fun _ _ _ h h' => le_trans h h'⟩

/-- The stable ascending sort
`entries.sort((a, b) => a.date.getTime() - b.date.getTime())`. -/
def sortByDate (entries : List CycleEntry) : List CycleEntry :=
  List.insertionSort dateLE entries

/-- JS truthiness test `entry.flow_intensity && entry.flow_intensity !== 'none'`
(`null` and the empty string are falsy). -/
def hasFlow (e : CycleEntry) : Bool :=
  match e.flow_intensity with
  | none => false
  | some s => !(s == "") && !(s == "none")

/-- The scan of `identifyCycleStarts` over the sorted entries, carrying the
mutable `inPeriod` flag. -/
def cycleStartsLoop : List CycleEntry → Bool → List ℤ
  | [], _ => []
  | e :: rest, inPeriod =>
    if hasFlow e && !inPeriod then e.entry_date :: cycleStartsLoop rest true
    else if !(hasFlow e) then cycleStartsLoop rest false
    else cycleStartsLoop rest inPeriod

/-- `identifyCycleStarts`: sort ascending by date, then emit a start at every
transition from "not in period" to "has flow". -/
def identifyCycleStarts (entries : List CycleEntry) : List ℤ :=
  cycleStartsLoop (sortByDate entries) false

/-- `calculateCycleLengths`: day differences between consecutive cycle starts
(`Math.round` of an exact integer difference is the identity). -/
def calculateCycleLengths : List ℤ → List ℤ
  | [] => []
  | [_] => []
  | a :: b :: rest => (b - a) :: calculateCycleLengths (b :: rest)

/-- `{ average, stdDev }` as returned by `calculateCycleStats`. -/
structure CycleStats where
  average : ℝ
  stdDev : ℝ

/-- `calculateCycleStats`: arithmetic mean and sample standard deviation
(divisor `n - 1`) with early returns for zero or one sample. -/
noncomputable def calculateCycleStats (cycleLengths : List ℤ) : CycleStats :=
  if cycleLengths.length = 0 then ⟨0, 0⟩
  else
    let average : ℝ := ((cycleLengths.sum : ℤ) : ℝ) / cycleLengths.length
    if cycleLengths.length = 1 then ⟨average, 0⟩
    else
      let variance : ℝ :=
        (cycleLengths.map (fun v : ℤ => ((v : ℝ) - average) ^ 2)).sum /
          ((cycleLengths.length : ℝ) - 1)
      ⟨average, Real.sqrt variance⟩

/-- The expression
`Math.max(0.5, Math.min(0.95, 1 - (stdDev / average) * 0.5))` under JS
floating-point semantics.  When `average = 0` the division produces `NaN`
(if `stdDev = 0`, modelled `none`) or `±∞` (otherwise), and `Math.min` /
`Math.max` propagate `NaN` and collapse the infinities as shown. -/
noncomputable def clampConfidence (stdDev average : ℝ) : Option ℝ :=
  if average = 0 then
    if stdDev = 0 then none          -- 0/0 = NaN; min/max propagate NaN
    else if 0 < stdDev then some 0.5 -- x/0 = +∞ ⇒ max (0.5) (min 0.95 (-∞)) = 0.5
    else some 0.95                   -- x/0 = -∞ ⇒ max (0.5) (min 0.95 (+∞)) = 0.95
  else some (max 0.5 (min 0.95 (1 - (stdDev / average) * 0.5)))

/-- `predictCycle` (shared library, `cycle-predictions.ts`): the main
prediction function.  `today` is the call-time clock used when there is no
history.  The statistics are computed unconditionally here (they are pure);
the guards on which values are *used* mirror the source exactly. -/
noncomputable def predictCycle (cycleEntries : List CycleEntry) (profile : UserProfile)
    (maxEntriesToAnalyze : ℕ) (today : ℤ) : PredictionResult :=
  let recentEntries := cycleEntries.take maxEntriesToAnalyze
  let cycleStarts := identifyCycleStarts recentEntries
  let cycleLengths := calculateCycleLengths cycleStarts
  let stats := calculateCycleStats cycleLengths
  let predictedCycleLength : ℤ :=
    if 2 ≤ cycleStarts.length then jsRound stats.average else profile.cycle_length_days
  let confidence : Option ℝ :=
    if 2 ≤ cycleStarts.length then
      if 3 ≤ cycleLengths.length then clampConfidence stats.stdDev stats.average
      else some (0.6 + (cycleLengths.length : ℝ) * 0.1)
    else some 0.5
  let source : Source :=
    if 2 ≤ cycleStarts.length then
      if 3 ≤ cycleLengths.length then Source.historical else Source.hybrid
    else Source.profile_default
  let metadata : Metadata :=
    if 2 ≤ cycleStarts.length then
      ⟨cycleLengths.length, some stats.average, some stats.stdDev⟩
    else ⟨0, none, none⟩
  let lastCycleStart : ℤ := (cycleStarts.getLast?).getD today
  let ovulationDay : ℤ := jsRound ((predictedCycleLength : ℝ) / 2)
  { next_period_start := lastCycleStart + predictedCycleLength
    next_period_end := lastCycleStart + (predictedCycleLength + profile.period_length_days - 1)
    fertility_window_start := lastCycleStart + (ovulationDay - 5)
    fertility_window_end := lastCycleStart + (ovulationDay + 1)
    confidence := confidence.map round2
    source := source
    metadata := metadata }

/-- `predictMultipleCycles`: the loop body computes a prediction from the
current entry list, emits it, and prepends a synthetic medium-flow entry
dated at the prediction's `next_period_start` for the next iteration.
The inner call uses the default `maxEntriesToAnalyze = 90`. -/
noncomputable def predictMultipleCycles (cycleEntries : List CycleEntry)
    (profile : UserProfile) (numberOfCycles : ℕ) (today : ℤ) : List PredictionResult :=
  match numberOfCycles with
  | 0 => []
  | n + 1 =>
    let prediction := predictCycle cycleEntries profile 90 today
    prediction ::
      predictMultipleCycles (⟨prediction.next_period_start, some "medium"⟩ :: cycleEntries)
        profile n today

/-! ## The duplicated serverless implementation

`supabase/functions/predict-cycle/index.ts` contains its own copies of the
four helpers and of `predictCycle`.  They are embedded again here, with an
`edge` prefix, so that the two can be compared. -/

/-- `hasFlow` test of the serverless copy. -/
def edgeHasFlow (e : CycleEntry) : Bool :=
  match e.flow_intensity with
  | none => false
  | some s => !(s == "") && !(s == "none")

/-- Scan of the serverless `identifyCycleStarts`. -/
def edgeCycleStartsLoop : List CycleEntry → Bool → List ℤ
  | [], _ => []
  | e :: rest, inPeriod =>
    if edgeHasFlow e && !inPeriod then e.entry_date :: edgeCycleStartsLoop rest true
    else if !(edgeHasFlow e) then edgeCycleStartsLoop rest false
    else edgeCycleStartsLoop rest inPeriod

/-- `identifyCycleStarts` of the serverless copy. -/
def edgeIdentifyCycleStarts (entries : List CycleEntry) : List ℤ :=
  edgeCycleStartsLoop (List.insertionSort dateLE entries) false

/-- `calculateCycleLengths` of the serverless copy. -/
def edgeCalculateCycleLengths : List ℤ → List ℤ
  | [] => []
  | [_] => []
  | a :: b :: rest => (b - a) :: edgeCalculateCycleLengths (b :: rest)

/-- `calculateCycleStats` of the serverless copy. -/
noncomputable def edgeCalculateCycleStats (cycleLengths : List ℤ) : CycleStats :=
  if cycleLengths.length = 0 then ⟨0, 0⟩
  else
    let average : ℝ := ((cycleLengths.sum : ℤ) : ℝ) / cycleLengths.length
    if cycleLengths.length = 1 then ⟨average, 0⟩
    else
      let variance : ℝ :=
        (cycleLengths.map (fun v : ℤ => ((v : ℝ) - average) ^ 2)).sum /
          ((cycleLengths.length : ℝ) - 1)
      ⟨average, Real.sqrt variance⟩

/-- Confidence clamp of the serverless copy (same JS expression, same
special-value semantics). -/
noncomputable def edgeClampConfidence (stdDev average : ℝ) : Option ℝ :=
  if average = 0 then
    if stdDev = 0 then none
    else if 0 < stdDev then some 0.5
    else some 0.95
  else some (max 0.5 (min 0.95 (1 - (stdDev / average) * 0.5)))

/-- `predictCycle` of the serverless copy
(`supabase/functions/predict-cycle/index.ts`). -/
noncomputable def edgePredictCycle (cycleEntries : List CycleEntry) (profile : UserProfile)
    (maxEntriesToAnalyze : ℕ) (today : ℤ) : PredictionResult :=
  let recentEntries := cycleEntries.take maxEntriesToAnalyze
  let cycleStarts := edgeIdentifyCycleStarts recentEntries
  let cycleLengths := edgeCalculateCycleLengths cycleStarts
  let stats := edgeCalculateCycleStats cycleLengths
  let predictedCycleLength : ℤ :=
    if 2 ≤ cycleStarts.length then jsRound stats.average else profile.cycle_length_days
  let confidence : Option ℝ :=
    if 2 ≤ cycleStarts.length then
      if 3 ≤ cycleLengths.length then edgeClampConfidence stats.stdDev stats.average
      else some (0.6 + (cycleLengths.length : ℝ) * 0.1)
    else some 0.5
  let source : Source :=
    if 2 ≤ cycleStarts.length then
      if 3 ≤ cycleLengths.length then Source.historical else Source.hybrid
    else Source.profile_default
  let metadata : Metadata :=
    if 2 ≤ cycleStarts.length then
      ⟨cycleLengths.length, some stats.average, some stats.stdDev⟩
    else ⟨0, none, none⟩
  let lastCycleStart : ℤ := (cycleStarts.getLast?).getD today
  let ovulationDay : ℤ := jsRound ((predictedCycleLength : ℝ) / 2)
  { next_period_start := lastCycleStart + predictedCycleLength
    next_period_end := lastCycleStart + (predictedCycleLength + profile.period_length_days - 1)
    fertility_window_start := lastCycleStart + (ovulationDay - 5)
    fertility_window_end := lastCycleStart + (ovulationDay + 1)
    confidence := confidence.map round2
    source := source
    metadata := metadata }

/-! ## Reminder due-check evaluator and message composer

From the `send-reminders` function (source reproduced in
`supabase/functions/README.md`).  The `metadata` fields of a stored
prediction that the evaluator reads are inlined as optional fields. -/

/-- `schedule_config` of a reminder row. -/
structure ScheduleConfig where
  time : Option String
  days_before : Option ℤ
  frequency : Option String
  custom_message : Option String
deriving DecidableEq, Repr

/-- A reminder row. -/
structure Reminder where
  id : String
  user_id : String
  reminder_type : String
  schedule_config : ScheduleConfig
  enabled : Bool
deriving DecidableEq, Repr

/-- A stored prediction row as read by the reminder sweep
(`fertility_window_start` / `fertility_window_end` live in its metadata). -/
structure Prediction where
  cycle_start_date : ℤ
  cycle_end_date : ℤ
  fertility_window_start : Option ℤ
  fertility_window_end : Option ℤ
deriving DecidableEq, Repr

/-- JS `s || d` on an optional string: `null` and `""` are falsy. -/
def jsStringOr (s : Option String) (d : String) : String :=
  match s with
  | none => d
  | some s => if s = "" then d else s

/-- JS `n || d` on an optional number: `null` and `0` are falsy. -/
def jsNumOr (n : Option ℤ) (d : ℤ) : ℤ :=
  match n with
  | none => d
  | some n => if n = 0 then d else n

/-- `shouldSendReminder`: the pure due decision, with the clock passed in as
`today`.  A `medication`/`hydration` reminder whose frequency is not `daily`
falls through to the prediction-based branches, as in the source, and ends in
the final `return false`. -/
def shouldSendReminder (reminder : Reminder) (prediction : Option Prediction)
    (today : ℤ) : Bool :=
  if !reminder.enabled then false
  else if (reminder.reminder_type == "medication" || reminder.reminder_type == "hydration")
      && (jsStringOr reminder.schedule_config.frequency "daily" == "daily") then
    true
  else
    match prediction with
    | none => false
    | some prediction =>
      let daysBefore := jsNumOr reminder.schedule_config.days_before 3
      if reminder.reminder_type == "period_start" then
        prediction.cycle_start_date - daysBefore == today
      else if reminder.reminder_type == "period_end" then
        prediction.cycle_end_date - daysBefore == today
      else if reminder.reminder_type == "fertile_window" then
        match prediction.fertility_window_start with
        | none => false
        | some fertilityStart => fertilityStart - daysBefore == today
      else false

/-- The `switch` of `generateReminderMessage` (dates are rendered with
`toString` where the source interpolates the stored date string). -/
def defaultReminderMessage (reminder : Reminder) (prediction : Option Prediction) : String :=
  if reminder.reminder_type == "period_start" then
    match prediction with
    | some p =>
      "Your period is expected to start around " ++ toString p.cycle_start_date
        ++ ". Stay prepared!"
    | none => "Period reminder"
  else if reminder.reminder_type == "period_end" then
    match prediction with
    | some p => "Your period is expected to end around " ++ toString p.cycle_end_date ++ "."
    | none => "Period end reminder"
  else if reminder.reminder_type == "fertile_window" then
    match prediction with
    | some p =>
      match p.fertility_window_start with
      | some f => "Your fertile window starts around " ++ toString f ++ "."
      | none => "Fertility window reminder"
    | none => "Fertility window reminder"
  else if reminder.reminder_type == "medication" then
    "Time to take your medication."
  else if reminder.reminder_type == "hydration" then
    "Remember to stay hydrated!"
  else "Reminder notification"

/-- `generateReminderMessage`: `if (custom_message) return custom_message;`
(JS truthiness: a `null` or empty custom message falls through to the
default template), otherwise the per-type template. -/
def generateReminderMessage (reminder : Reminder) (prediction : Option Prediction) : String :=
  match reminder.schedule_config.custom_message with
  | some m => if m = "" then defaultReminderMessage reminder prediction else m
  | none => defaultReminderMessage reminder prediction

/-! ## Specification-side statistics

These definitions follow the wording of the specification ("arithmetic mean",
"sample standard deviation (divisor n-1)") and are compared with the
source-derived `calculateCycleStats`. -/

/-- Arithmetic mean of integer samples (division by the length). -/
noncomputable def sampleMean (samples : List ℤ) : ℝ :=
  ((samples.sum : ℤ) : ℝ) / samples.length

/-- Sample standard deviation: square root of the sum of squared deviations
from the mean divided by `n - 1`. -/
noncomputable def sampleStdDev (samples : List ℤ) : ℝ :=
  Real.sqrt ((samples.map (fun v : ℤ => ((v : ℝ) - sampleMean samples) ^ 2)).sum /
    ((samples.length : ℝ) - 1))
/-! ## Bridge lemmas -/

/-- There is one cycle-length sample fewer than there are cycle starts. -/
theorem length_calculateCycleLengths :
    ∀ l : List ℤ, (calculateCycleLengths l).length = l.length - 1
  | [] => rfl
  | [_] => rfl
  | a :: b :: rest => by
    simp [calculateCycleLengths, length_calculateCycleLengths (b :: rest)]

/-- `calculateCycleStats` computes exactly the arithmetic mean and the
sample standard deviation; its early returns for zero or one sample agree
with the closed formulas (whose degenerate divisions are `0` by convention). -/
theorem calculateCycleStats_eq (l : List ℤ) :
    calculateCycleStats l = ⟨sampleMean l, sampleStdDev l⟩ := by
  match l with
  | [] => simp [calculateCycleStats, sampleMean, sampleStdDev]
  | [x] =>
    simp [calculateCycleStats, sampleMean, sampleStdDev]
  | a :: b :: rest =>
    simp [calculateCycleStats, sampleMean, sampleStdDev, List.length_cons]

/-- `round2` is monotone. -/
theorem round2_mono {x y : ℝ} (h : x ≤ y) : round2 x ≤ round2 y := by
  unfold round2 jsRound
  have h2 : (⌊x * 100 + 1/2⌋ : ℤ) ≤ ⌊y * 100 + 1/2⌋ := Int.floor_le_floor (by linarith)
  have h3 : ((⌊x * 100 + 1/2⌋ : ℤ) : ℝ) ≤ ((⌊y * 100 + 1/2⌋ : ℤ) : ℝ) := by exact_mod_cast h2
  linarith

/-! ## C2 and C8 -/

/-- C2: for every input to `predictCycle`, the returned dates satisfy
`next_period_end - next_period_start + 1 = period_length_days` and
`fertility_window_end - fertility_window_start = 6`. -/
theorem predictCycle_window_exactness (e : List CycleEntry) (p : UserProfile)
    (m : ℕ) (t : ℤ) :
    (predictCycle e p m t).next_period_end - (predictCycle e p m t).next_period_start + 1
        = p.period_length_days ∧
      (predictCycle e p m t).fertility_window_end
          - (predictCycle e p m t).fertility_window_start = 6 := by
  simp only [predictCycle]
  constructor <;> ring

/-- The two copies of the flow-truthiness test agree. -/
theorem edgeHasFlow_eq (e : CycleEntry) : edgeHasFlow e = hasFlow e := rfl

/-- The two copies of the segmentation scan agree. -/
theorem edgeCycleStartsLoop_eq : ∀ (l : List CycleEntry) (b : Bool),
    edgeCycleStartsLoop l b = cycleStartsLoop l b
  | [], _ => rfl
  | e :: rest, b => by
    simp [edgeCycleStartsLoop, cycleStartsLoop, edgeHasFlow_eq,
      edgeCycleStartsLoop_eq rest]

/-- The two copies of `identifyCycleStarts` agree. -/
theorem edgeIdentifyCycleStarts_eq (entries : List CycleEntry) :
    edgeIdentifyCycleStarts entries = identifyCycleStarts entries := by
  simp [edgeIdentifyCycleStarts, identifyCycleStarts, sortByDate, edgeCycleStartsLoop_eq]

/-- The two copies of `calculateCycleLengths` agree. -/
theorem edgeCalculateCycleLengths_eq :
    ∀ l : List ℤ, edgeCalculateCycleLengths l = calculateCycleLengths l
  | [] => rfl
  | [_] => rfl
  | a :: b :: rest => by
    simp [edgeCalculateCycleLengths, calculateCycleLengths,
      edgeCalculateCycleLengths_eq (b :: rest)]

/-- The two copies of `calculateCycleStats` agree. -/
theorem edgeCalculateCycleStats_eq (l : List ℤ) :
    edgeCalculateCycleStats l = calculateCycleStats l := rfl

/-- The two copies of the confidence clamp agree. -/
theorem edgeClampConfidence_eq (s a : ℝ) :
    edgeClampConfidence s a = clampConfidence s a := rfl

/-- C8: the shared-library `predictCycle` and the serverless copy are
extensionally equal on every input. -/
theorem edgePredictCycle_eq_predictCycle (e : List CycleEntry) (p : UserProfile)
    (m : ℕ) (t : ℤ) : edgePredictCycle e p m t = predictCycle e p m t := by
  simp only [edgePredictCycle, predictCycle, edgeIdentifyCycleStarts_eq,
    edgeCalculateCycleLengths_eq, edgeCalculateCycleStats_eq, edgeClampConfidence_eq]
/-! ## Abbreviations for the prediction pipeline stages -/

/-- The cycle starts detected from the analyzed slice of the log. -/
def cycleStartsOf (e : List CycleEntry) (m : ℕ) : List ℤ :=
  identifyCycleStarts (e.take m)

/-- The cycle-length samples of the analyzed slice. -/
def samplesOf (e : List CycleEntry) (m : ℕ) : List ℤ :=
  calculateCycleLengths (cycleStartsOf e m)

/-- The number of cycle-length samples: cycle starts minus one, floored at
zero (natural subtraction). -/
def sampleCountOf (e : List CycleEntry) (m : ℕ) : ℕ :=
  (cycleStartsOf e m).length - 1

/-- The anchor date: the last detected cycle start, or `today` without
history. -/
def anchorOf (e : List CycleEntry) (m : ℕ) (t : ℤ) : ℤ :=
  ((cycleStartsOf e m).getLast?).getD t

/-- Unfolding of the `source` field of `predictCycle`. -/
theorem predictCycle_source (e : List CycleEntry) (p : UserProfile) (m : ℕ) (t : ℤ) :
    (predictCycle e p m t).source =
      if 2 ≤ (cycleStartsOf e m).length then
        if 3 ≤ (samplesOf e m).length then Source.historical else Source.hybrid
      else Source.profile_default := rfl

/-- Unfolding of the `confidence` field of `predictCycle`. -/
theorem predictCycle_confidence (e : List CycleEntry) (p : UserProfile) (m : ℕ) (t : ℤ) :
    (predictCycle e p m t).confidence =
      (if 2 ≤ (cycleStartsOf e m).length then
        if 3 ≤ (samplesOf e m).length then
          clampConfidence (calculateCycleStats (samplesOf e m)).stdDev
            (calculateCycleStats (samplesOf e m)).average
        else some (0.6 + ((samplesOf e m).length : ℝ) * 0.1)
      else some 0.5).map round2 := rfl

/-- Unfolding of the `next_period_start` field of `predictCycle`. -/
theorem predictCycle_next_period_start (e : List CycleEntry) (p : UserProfile)
    (m : ℕ) (t : ℤ) :
    (predictCycle e p m t).next_period_start =
      anchorOf e m t +
        (if 2 ≤ (cycleStartsOf e m).length then
          jsRound (calculateCycleStats (samplesOf e m)).average
        else p.cycle_length_days) := rfl
/-! ## Sortedness of the detected cycle starts -/

/-- The dates emitted by the segmentation scan form a sublist of the input
dates. -/
theorem cycleStartsLoop_sublist :
    ∀ (l : List CycleEntry) (b : Bool),
      List.Sublist (cycleStartsLoop l b) (l.map CycleEntry.entry_date)
  | [], _ => List.Sublist.refl _
  | e :: rest, b => by
    simp only [cycleStartsLoop, List.map_cons]
    split
    · exact (cycleStartsLoop_sublist rest true).cons₂ _
    · split
      · exact (cycleStartsLoop_sublist rest false).cons _
      · exact (cycleStartsLoop_sublist rest b).cons _

/-- The detected cycle starts are in ascending order. -/
theorem sorted_identifyCycleStarts (entries : List CycleEntry) :
    (identifyCycleStarts entries).Sorted (· ≤ ·) := by
  have hs : (sortByDate entries).Sorted dateLE :=
    List.sorted_insertionSort dateLE entries
  have hm : ((sortByDate entries).map CycleEntry.entry_date).Sorted (· ≤ ·) := by
    rw [List.Sorted, List.pairwise_map]
    exact hs
  exact hm.sublist (cycleStartsLoop_sublist (sortByDate entries) false)

/-- Cycle-length samples of an ascending start list are non-negative. -/
theorem nonneg_calculateCycleLengths :
    ∀ l : List ℤ, l.Sorted (· ≤ ·) → ∀ x ∈ calculateCycleLengths l, 0 ≤ x
  | [], _, x, hx => by simp [calculateCycleLengths] at hx
  | [_], _, x, hx => by simp [calculateCycleLengths] at hx
  | a :: b :: rest, h, x, hx => by
    simp only [calculateCycleLengths, List.mem_cons] at hx
    rcases hx with rfl | hx
    · have hab : a ≤ b := (List.sorted_cons.1 h).1 b (List.mem_cons_self _ _)
      omega
    · exact nonneg_calculateCycleLengths (b :: rest) (List.sorted_cons.1 h).2 x hx

/-- A list of non-negative integers with zero sum is all zeros. -/
theorem all_zero_of_nonneg_sum_zero :
    ∀ l : List ℤ, (∀ x ∈ l, 0 ≤ x) → l.sum = 0 → ∀ x ∈ l, x = 0
  | [], _, _, x, hx => by simp at hx
  | a :: rest, hnn, hsum, x, hx => by
    have ha : 0 ≤ a := hnn a (List.mem_cons_self _ _)
    have hrest : 0 ≤ rest.sum := List.sum_nonneg fun y hy => hnn y (List.mem_cons_of_mem _ hy)
    simp only [List.sum_cons] at hsum
    rcases List.mem_cons.1 hx with rfl | hx
    · omega
    · exact all_zero_of_nonneg_sum_zero rest
        (fun y hy => hnn y (List.mem_cons_of_mem _ hy)) (by omega) x hx

/-- Sum of squared deviations from `0` of an all-zero sample list. -/
theorem sum_map_sq_zero : ∀ l : List ℤ, (∀ x ∈ l, x = 0) →
    (l.map fun v : ℤ => ((v : ℝ)) ^ 2).sum = 0
  | [], _ => by simp
  | a :: rest, h => by
    have ha := h a (List.mem_cons_self _ _)
    have hr := sum_map_sq_zero rest (fun x hx => h x (List.mem_cons_of_mem _ hx))
    simp only [List.map_cons, List.sum_cons, hr, ha]
    norm_num

/-- If every sample is zero, the sample standard deviation is zero. -/
theorem sampleStdDev_eq_zero (l : List ℤ) (h : ∀ x ∈ l, x = 0) :
    sampleStdDev l = 0 := by
  have hmean : sampleMean l = 0 := by
    unfold sampleMean
    rw [List.sum_eq_zero h]
    simp
  unfold sampleStdDev
  rw [hmean]
  simp only [sub_zero]
  rw [sum_map_sq_zero l h]
  simp
/-- C1 (amended): source, confidence and predicted cycle length of
`predictCycle` as a function of the sample count (cycle starts minus one,
floored at zero): `0` samples give `profile_default` / `0.5` /
`cycle_length_days`; `1` or `2` samples give `hybrid` /
`round2 (0.6 + 0.1 · n)` / `round(mean)`; `≥ 3` samples give `historical` /
`round2 (clamp (1 - (stdDev/mean) · 0.5) [0.5, 0.95])` / `round(mean)` —
except that with `≥ 3` samples of zero mean the unguarded division makes the
returned confidence `NaN` (`none`). -/
theorem predictCycle_sample_count_cases (e : List CycleEntry) (p : UserProfile)
    (m : ℕ) (t : ℤ) :
    (predictCycle e p m t).source =
        (if sampleCountOf e m = 0 then Source.profile_default
         else if sampleCountOf e m ≤ 2 then Source.hybrid
         else Source.historical) ∧
      (predictCycle e p m t).confidence =
        (if sampleCountOf e m = 0 then some (round2 0.5)
         else if sampleCountOf e m ≤ 2 then
           some (round2 (0.6 + 0.1 * (sampleCountOf e m : ℝ)))
         else if sampleMean (samplesOf e m) = 0 then none
         else some (round2 (max 0.5 (min 0.95
           (1 - sampleStdDev (samplesOf e m) / sampleMean (samplesOf e m) * 0.5))))) ∧
      (predictCycle e p m t).next_period_start =
        anchorOf e m t +
          (if sampleCountOf e m = 0 then p.cycle_length_days
           else jsRound (sampleMean (samplesOf e m))) := by
  have hlen : (samplesOf e m).length = (cycleStartsOf e m).length - 1 :=
    length_calculateCycleLengths _
  have hn : sampleCountOf e m = (cycleStartsOf e m).length - 1 := rfl
  rw [predictCycle_source, predictCycle_confidence, predictCycle_next_period_start,
    calculateCycleStats_eq]
  by_cases h2 : 2 ≤ (cycleStartsOf e m).length
  · by_cases h3 : 3 ≤ (samplesOf e m).length
    · have hc0 : ¬ sampleCountOf e m = 0 := by omega
      have hc2 : ¬ sampleCountOf e m ≤ 2 := by omega
      rw [if_pos h2, if_pos h3, if_pos h2, if_pos h3, if_pos h2,
        if_neg hc0, if_neg hc2, if_neg hc0, if_neg hc2, if_neg hc0]
      refine ⟨rfl, ?_, rfl⟩
      by_cases hm0 : sampleMean (samplesOf e m) = 0
      · rw [if_pos hm0]
        have hsum : (samplesOf e m).sum = 0 := by
          unfold sampleMean at hm0
          rw [div_eq_zero_iff] at hm0
          rcases hm0 with hm0 | hm0
          · exact_mod_cast hm0
          · exfalso
            have : (samplesOf e m).length ≠ 0 := by omega
            exact this (by exact_mod_cast hm0)
        have hz : ∀ x ∈ samplesOf e m, x = 0 :=
          all_zero_of_nonneg_sum_zero _
            (nonneg_calculateCycleLengths _ (sorted_identifyCycleStarts _)) hsum
        have hsd : sampleStdDev (samplesOf e m) = 0 := sampleStdDev_eq_zero _ hz
        simp [clampConfidence, hm0, hsd]
      · simp [clampConfidence, hm0]
    · have hc0 : ¬ sampleCountOf e m = 0 := by omega
      have hc2 : sampleCountOf e m ≤ 2 := by omega
      rw [if_pos h2, if_neg h3, if_pos h2, if_neg h3, if_pos h2,
        if_neg hc0, if_pos hc2, if_neg hc0, if_pos hc2, if_neg hc0]
      refine ⟨rfl, ?_, rfl⟩
      have hlc : ((samplesOf e m).length : ℝ) = (sampleCountOf e m : ℝ) := by
        rw [hn, ← hlen]
      rw [Option.map_some']
      congr 1
      rw [hlc]
      ring_nf
  · have hc0 : sampleCountOf e m = 0 := by omega
    rw [if_neg h2, if_neg h2, if_neg h2, if_pos hc0, if_pos hc0, if_pos hc0]
    exact ⟨rfl, rfl, rfl⟩
/-- `round2` fixes any value that is an integer number of hundredths. -/
theorem round2_fixed {x : ℝ} {k : ℤ} (h : x * 100 = k) : round2 x = x := by
  unfold round2 jsRound
  rw [h]
  have hf : ⌊(k : ℝ) + 1/2⌋ = k := by
    rw [Int.floor_eq_iff]
    constructor
    · linarith
    · linarith
  rw [hf]
  linarith

/-- A log of seven same-day entries alternating flow and `none`: its
segmentation yields four identical cycle starts, hence three zero-length
samples with zero mean. -/
def degenerateEntries : List CycleEntry :=
  [⟨100, some "medium"⟩, ⟨100, some "none"⟩, ⟨100, some "medium"⟩, ⟨100, some "none"⟩,
   ⟨100, some "medium"⟩, ⟨100, some "none"⟩, ⟨100, some "medium"⟩]

/-- On the degenerate log the unguarded `stdDev / average` is `0 / 0 = NaN`
and the returned confidence is `NaN`. -/
theorem degenerate_confidence_none :
    (predictCycle degenerateEntries ⟨28, 5⟩ 90 0).confidence = none := by
  have hstarts : cycleStartsOf degenerateEntries 90 = [100, 100, 100, 100] := by decide
  have hsamp : samplesOf degenerateEntries 90 = [0, 0, 0] := by decide
  rw [predictCycle_confidence, calculateCycleStats_eq, hstarts, hsamp]
  have hmean : sampleMean [0, 0, 0] = 0 := by
    simp [sampleMean]
  have hsd : sampleStdDev [0, 0, 0] = 0 := sampleStdDev_eq_zero _ (by decide)
  simp [clampConfidence, hmean, hsd]
/-- C5: the claimed confidence bound fails on the code.  On the degenerate
log (three cycle-length samples, all zero) the division `stdDev / average`
is unguarded `0 / 0`, so the returned confidence is `NaN` (`none`) rather
than a value in `[0.5, 0.95]`. -/
theorem predictCycle_degenerate_confidence_NaN :
    (predictCycle degenerateEntries ⟨28, 5⟩ 90 0).confidence = none ∧
      3 ≤ sampleCountOf degenerateEntries 90 := by
  exact ⟨degenerate_confidence_none, by decide⟩

/-- C1, counterexample: on the degenerate log the sample count is `3` but the
returned confidence is not the claimed
`round2 (clamp (1 - (stdDev/mean) * 0.5) [0.5, 0.95])` — it is `NaN`. -/
theorem predictCycle_confidence_formula_fails :
    3 ≤ sampleCountOf degenerateEntries 90 ∧
      (predictCycle degenerateEntries ⟨28, 5⟩ 90 0).confidence ≠
        some (round2 (max 0.5 (min 0.95
          (1 - sampleStdDev (samplesOf degenerateEntries 90) /
            sampleMean (samplesOf degenerateEntries 90) * 0.5)))) := by
  refine ⟨by decide, ?_⟩
  rw [degenerate_confidence_none]
  simp

/-- A log whose segmentation yields exactly three cycle starts, 28 days
apart. -/
def threeStartEntries : List CycleEntry :=
  [⟨0, some "medium"⟩, ⟨1, some "none"⟩, ⟨28, some "medium"⟩, ⟨29, some "none"⟩,
   ⟨56, some "medium"⟩]

/-- C3, counterexample: three cycle starts exactly 28 days apart yield only
two samples, so the source is `hybrid`, not the claimed `historical`. -/
theorem threeStarts_not_historical :
    identifyCycleStarts threeStartEntries = [0, 28, 56] ∧
      (predictCycle threeStartEntries ⟨28, 5⟩ 90 0).source = Source.hybrid ∧
      (predictCycle threeStartEntries ⟨28, 5⟩ 90 0).source ≠ Source.historical := by
  refine ⟨by decide, by decide, by decide⟩

/-- C3 (amended): *four* cycle starts each exactly 28 days apart (three
zero-variance samples) give `source = historical` and `confidence = 0.95`
for every profile. -/
theorem predictCycle_fourEvenStarts_historical (e : List CycleEntry) (p : UserProfile)
    (m : ℕ) (t : ℤ) (d : ℤ)
    (h : cycleStartsOf e m = [d, d + 28, d + 56, d + 84]) :
    (predictCycle e p m t).source = Source.historical ∧
      (predictCycle e p m t).confidence = some 0.95 := by
  have hsamp : samplesOf e m = [28, 28, 28] := by
    unfold samplesOf
    rw [h]
    simp [calculateCycleLengths]
  have hmean : sampleMean [28, 28, 28] = 28 := by
    simp [sampleMean]
    norm_num
  have hsd : sampleStdDev [28, 28, 28] = 0 := by
    unfold sampleStdDev
    rw [hmean]
    have : ([28, 28, 28].map fun v : ℤ => ((v : ℝ) - 28) ^ 2) = [0, 0, 0] := by
      norm_num
    rw [this]
    simp
  constructor
  · rw [predictCycle_source, h, hsamp]
    norm_num
  · rw [predictCycle_confidence, calculateCycleStats_eq, h, hsamp]
    have h4 : (2:ℕ) ≤ ([d, d + 28, d + 56, d + 84] : List ℤ).length := by simp
    have h3 : (3:ℕ) ≤ ([28, 28, 28] : List ℤ).length := by simp
    rw [if_pos h4, if_pos h3, hmean, hsd]
    have h28 : (28:ℝ) ≠ 0 := by norm_num
    rw [clampConfidence, if_neg h28]
    have hmm : max 0.5 (min 0.95 (1 - (0:ℝ) / 28 * 0.5)) = 0.95 := by
      norm_num
    rw [hmm, Option.map_some']
    rw [round2_fixed (k := 95) (by norm_num)]
/-- A log whose segmentation yields four cycle starts each 28 days apart. -/
def fourStartEntries : List CycleEntry :=
  [⟨0, some "medium"⟩, ⟨1, some "none"⟩, ⟨28, some "medium"⟩, ⟨29, some "none"⟩,
   ⟨56, some "medium"⟩, ⟨57, some "none"⟩, ⟨84, some "medium"⟩]

/-- Witness for the amended C3 at a concrete log. -/
theorem predictCycle_fourEvenStarts_historical_witness :
    (predictCycle fourStartEntries ⟨28, 5⟩ 90 0).source = Source.historical ∧
      (predictCycle fourStartEntries ⟨28, 5⟩ 90 0).confidence = some 0.95 :=
  predictCycle_fourEvenStarts_historical fourStartEntries ⟨28, 5⟩ 90 0 0 (by decide)

/-- Evaluation of the historical-branch confidence for a given sample list
with nonzero mean. -/
theorem confidence_of_samples (e : List CycleEntry) (p : UserProfile) (m : ℕ) (t : ℤ)
    (l : List ℤ) (hs : samplesOf e m = l) (h3 : 3 ≤ l.length)
    (mu sd : ℝ) (hmu : sampleMean l = mu) (hsd : sampleStdDev l = sd) (hmu0 : mu ≠ 0) :
    (predictCycle e p m t).confidence =
      some (round2 (max 0.5 (min 0.95 (1 - sd / mu * 0.5)))) := by
  have h2 : 2 ≤ (cycleStartsOf e m).length := by
    have hll := length_calculateCycleLengths (cycleStartsOf e m)
    have : (samplesOf e m).length = l.length := by rw [hs]
    unfold samplesOf at this
    omega
  rw [predictCycle_confidence, calculateCycleStats_eq, hs, hmu, hsd,
    if_pos h2, if_pos h3, clampConfidence, if_neg hmu0]
  simp
/-- A log with four cycle starts at days 0, 27, 55, 84 (samples 27, 28, 29). -/
def irregularEntries : List CycleEntry :=
  [⟨0, some "medium"⟩, ⟨1, some "none"⟩, ⟨27, some "medium"⟩, ⟨28, some "none"⟩,
   ⟨55, some "medium"⟩, ⟨56, some "none"⟩, ⟨84, some "medium"⟩]

/-- Mean of the samples 27, 28, 29. -/
theorem mean_272829 : sampleMean [27, 28, 29] = 28 := by
  simp [sampleMean]
  norm_num

/-- Sample standard deviation of 27, 28, 29. -/
theorem sd_272829 : sampleStdDev [27, 28, 29] = 1 := by
  unfold sampleStdDev
  rw [mean_272829]
  have h : ([27, 28, 29].map fun v : ℤ => ((v : ℝ) - 28) ^ 2) = [1, 0, 1] := by
    norm_num
  rw [h]
  norm_num

/-- Mean of the samples 28, 28, 28. -/
theorem mean_282828 : sampleMean [28, 28, 28] = 28 := by
  simp [sampleMean]
  norm_num

/-- Sample standard deviation of 28, 28, 28. -/
theorem sd_282828 : sampleStdDev [28, 28, 28] = 0 := by
  unfold sampleStdDev
  rw [mean_282828]
  have h : ([28, 28, 28].map fun v : ℤ => ((v : ℝ) - 28) ^ 2) = [0, 0, 0] := by
    norm_num
  rw [h]
  simp

/-- C6, counterexample: two inputs with three samples each, with strictly
different deviation ratios (1/28 versus 0), whose returned confidences are
*equal* (both clamp to the 0.95 cap), refuting strict monotonicity. -/
theorem confidence_not_strictly_antitone :
    (samplesOf irregularEntries 90).length = 3 ∧
      (samplesOf fourStartEntries 90).length = 3 ∧
      sampleStdDev (samplesOf fourStartEntries 90) /
          sampleMean (samplesOf fourStartEntries 90) <
        sampleStdDev (samplesOf irregularEntries 90) /
          sampleMean (samplesOf irregularEntries 90) ∧
      (predictCycle irregularEntries ⟨28, 5⟩ 90 0).confidence =
        (predictCycle fourStartEntries ⟨28, 5⟩ 90 0).confidence := by
  have hsA : samplesOf irregularEntries 90 = [27, 28, 29] := by decide
  have hsB : samplesOf fourStartEntries 90 = [28, 28, 28] := by decide
  have hcA := confidence_of_samples irregularEntries ⟨28, 5⟩ 90 0 [27, 28, 29] hsA
    (by norm_num) 28 1 mean_272829 sd_272829 (by norm_num)
  have hcB := confidence_of_samples fourStartEntries ⟨28, 5⟩ 90 0 [28, 28, 28] hsB
    (by norm_num) 28 0 mean_282828 sd_282828 (by norm_num)
  refine ⟨by decide, by decide, ?_, ?_⟩
  · rw [hsA, hsB, mean_272829, sd_272829, mean_282828, sd_282828]
    norm_num
  · rw [hcA, hcB]
    have hA : max 0.5 (min 0.95 (1 - (1:ℝ) / 28 * 0.5)) = 0.95 := by
      rw [min_eq_left (by norm_num), max_eq_right (by norm_num)]
    have hB : max 0.5 (min 0.95 (1 - (0:ℝ) / 28 * 0.5)) = 0.95 := by
      rw [min_eq_left (by norm_num), max_eq_right (by norm_num)]
    rw [hA, hB]

/-- C6 (amended): for a fixed sample count ≥ 3 and positive sample means,
the returned confidence is non-increasing in the deviation ratio
`stdDev/mean`: a strictly larger ratio gives a less-or-equal confidence
(clamping to `[0.5, 0.95]` and rounding to two decimals make ties
possible). -/
theorem predictCycle_confidence_antitone (e1 : List CycleEntry) (p1 : UserProfile)
    (m1 : ℕ) (t1 : ℤ) (e2 : List CycleEntry) (p2 : UserProfile) (m2 : ℕ) (t2 : ℤ)
    (h3 : 3 ≤ (samplesOf e1 m1).length)
    (hcount : (samplesOf e1 m1).length = (samplesOf e2 m2).length)
    (hm1 : 0 < sampleMean (samplesOf e1 m1))
    (hm2 : 0 < sampleMean (samplesOf e2 m2))
    (hratio : sampleStdDev (samplesOf e2 m2) / sampleMean (samplesOf e2 m2) <
      sampleStdDev (samplesOf e1 m1) / sampleMean (samplesOf e1 m1)) :
    (predictCycle e1 p1 m1 t1).confidence.isSome = true ∧
      (predictCycle e2 p2 m2 t2).confidence.isSome = true ∧
      (predictCycle e1 p1 m1 t1).confidence.getD 0 ≤
        (predictCycle e2 p2 m2 t2).confidence.getD 0 := by
  have hc1 := confidence_of_samples e1 p1 m1 t1 (samplesOf e1 m1) rfl h3
    (sampleMean (samplesOf e1 m1)) (sampleStdDev (samplesOf e1 m1)) rfl rfl (ne_of_gt hm1)
  have hc2 := confidence_of_samples e2 p2 m2 t2 (samplesOf e2 m2) rfl (hcount ▸ h3)
    (sampleMean (samplesOf e2 m2)) (sampleStdDev (samplesOf e2 m2)) rfl rfl (ne_of_gt hm2)
  rw [hc1, hc2]
  refine ⟨rfl, rfl, ?_⟩
  simp only [Option.getD_some]
  apply round2_mono
  apply max_le_max le_rfl
  apply min_le_min le_rfl
  linarith
/-- Witness for the amended C6 at two concrete logs (ratios 1/28 > 0). -/
theorem predictCycle_confidence_antitone_witness :
    (predictCycle irregularEntries ⟨28, 5⟩ 90 0).confidence.isSome = true ∧
      (predictCycle fourStartEntries ⟨28, 5⟩ 90 0).confidence.isSome = true ∧
      (predictCycle irregularEntries ⟨28, 5⟩ 90 0).confidence.getD 0 ≤
        (predictCycle fourStartEntries ⟨28, 5⟩ 90 0).confidence.getD 0 := by
  apply predictCycle_confidence_antitone
  · decide
  · decide
  · rw [(by decide : samplesOf irregularEntries 90 = [27, 28, 29]), mean_272829]
    norm_num
  · rw [(by decide : samplesOf fourStartEntries 90 = [28, 28, 28]), mean_282828]
    norm_num
  · rw [(by decide : samplesOf irregularEntries 90 = [27, 28, 29]),
      (by decide : samplesOf fourStartEntries 90 = [28, 28, 28]),
      mean_272829, sd_272829, mean_282828, sd_282828]
    norm_num

/-! ## C7: order-insensitivity of the segmentation -/

/-- Two orderings of the same three same-day entries. -/
def permutedA : List CycleEntry :=
  [⟨0, some "medium"⟩, ⟨0, some "none"⟩, ⟨0, some "medium"⟩]

/-- A permutation of `permutedA` with the two flow entries adjacent. -/
def permutedB : List CycleEntry :=
  [⟨0, some "medium"⟩, ⟨0, some "medium"⟩, ⟨0, some "none"⟩]

/-- C7, counterexample: with duplicate dates the stable sort preserves the
caller's order among ties, so two permutations of the same log can yield
different cycle-start lists. -/
theorem identifyCycleStarts_perm_counterexample :
    permutedA.Perm permutedB ∧
      identifyCycleStarts permutedA ≠ identifyCycleStarts permutedB := by
  constructor
  · decide
  · decide

/-- The strict date order on entries. -/
def dateLT (a b : CycleEntry) : Prop := a.entry_date < b.entry_date

instance : IsAntisymm CycleEntry dateLT :=
  ⟨fun _ _ h h' => absurd h' (not_lt.2 (le_of_lt h))⟩

/-- Sorting two permutations of one another by date gives the same list when
all dates are distinct. -/
theorem sortByDate_eq_of_perm (l1 l2 : List CycleEntry) (hperm : l1.Perm l2)
    (hnd : (l1.map CycleEntry.entry_date).Nodup) : sortByDate l1 = sortByDate l2 := by
  have hs1 : (sortByDate l1).Sorted dateLE := List.sorted_insertionSort dateLE l1
  have hs2 : (sortByDate l2).Sorted dateLE := List.sorted_insertionSort dateLE l2
  have hp1 : (sortByDate l1).Perm l1 := List.perm_insertionSort dateLE l1
  have hp2 : (sortByDate l2).Perm l2 := List.perm_insertionSort dateLE l2
  have hperm' : (sortByDate l1).Perm (sortByDate l2) :=
    hp1.trans (hperm.trans hp2.symm)
  have hnd1 : ((sortByDate l1).map CycleEntry.entry_date).Nodup :=
    ((hp1.map CycleEntry.entry_date).nodup_iff).2 hnd
  have hnd2 : ((sortByDate l2).map CycleEntry.entry_date).Nodup :=
    ((hperm'.symm.map CycleEntry.entry_date).nodup_iff).2 hnd1
  have hlt1 : (sortByDate l1).Sorted dateLT := by
    have hne : (sortByDate l1).Pairwise
        (fun a b => a.entry_date ≠ b.entry_date) := List.pairwise_map.1 hnd1
    exact (hs1.and hne).imp fun h => lt_of_le_of_ne h.1 h.2
  have hlt2 : (sortByDate l2).Sorted dateLT := by
    have hne : (sortByDate l2).Pairwise
        (fun a b => a.entry_date ≠ b.entry_date) := List.pairwise_map.1 hnd2
    exact (hs2.and hne).imp fun h => lt_of_le_of_ne h.1 h.2
  exact List.eq_of_perm_of_sorted hperm' hlt1 hlt2

/-- C7 (amended): when all entry dates are distinct, the segmentation is
insensitive to the caller's ordering: any two permutations of the log give
the same cycle-start list. -/
theorem identifyCycleStarts_perm_invariant (l1 l2 : List CycleEntry)
    (hperm : l1.Perm l2) (hnd : (l1.map CycleEntry.entry_date).Nodup) :
    identifyCycleStarts l1 = identifyCycleStarts l2 := by
  unfold identifyCycleStarts
  rw [sortByDate_eq_of_perm l1 l2 hperm hnd]

/-- Witness for the amended C7 at a concrete pair of orderings. -/
theorem identifyCycleStarts_perm_invariant_witness :
    identifyCycleStarts [⟨5, some "medium"⟩, ⟨3, some "none"⟩] =
      identifyCycleStarts [⟨3, some "none"⟩, ⟨5, some "medium"⟩] :=
  identifyCycleStarts_perm_invariant _ _ (by decide) (by decide)
/-! ## C4: the period_start due rule -/

/-- An enabled `period_start` reminder with `days_before = 0`. -/
def zeroDaysReminder : Reminder :=
  ⟨"r1", "u1", "period_start", ⟨none, some 0, none, none⟩, true⟩

/-- A stored prediction whose period starts on day 10. -/
def predictionAt10 : Prediction := ⟨10, 14, some 3, some 9⟩

/-- C4, counterexample: with `days_before` present and equal to `0`, the JS
`days_before || 3` falls back to `3`, so the reminder is *not* due on the
predicted start day itself (day 10) but three days earlier (day 7). -/
theorem shouldSendReminder_zero_daysBefore_fails :
    zeroDaysReminder.enabled = true ∧
      zeroDaysReminder.schedule_config.days_before = some 0 ∧
      shouldSendReminder zeroDaysReminder (some predictionAt10) 10 = false ∧
      shouldSendReminder zeroDaysReminder (some predictionAt10) 7 = true := by
  refine ⟨rfl, rfl, by decide, by decide⟩

/-- C4 (amended): an enabled `period_start` reminder with a prediction is due
exactly when `today` is `daysBefore` days before the predicted start, where
`daysBefore` is `schedule.days_before` when present *and nonzero*, and `3`
when it is absent or `0` (JS falsiness of `0`). -/
theorem shouldSendReminder_period_start_eval (r : Reminder) (p : Prediction) (t : ℤ)
    (hen : r.enabled = true) (hty : r.reminder_type = "period_start") :
    shouldSendReminder r (some p) t =
      (p.cycle_start_date - jsNumOr r.schedule_config.days_before 3 == t) := by
  unfold shouldSendReminder
  rw [hen, hty]
  rfl

theorem shouldSendReminder_period_start_iff (r : Reminder) (p : Prediction) (t : ℤ)
    (hen : r.enabled = true) (hty : r.reminder_type = "period_start") :
    (shouldSendReminder r (some p) t = true ↔
      t = p.cycle_start_date -
        (match r.schedule_config.days_before with
         | some d => if d = 0 then 3 else d
         | none => 3)) := by
  rw [shouldSendReminder_period_start_eval r p t hen hty]
  rw [beq_iff_eq]
  cases hD : r.schedule_config.days_before with
  | none =>
    simp only [jsNumOr]
    exact eq_comm
  | some d =>
    simp only [jsNumOr]
    exact eq_comm

/-- Witness for the amended C4: `days_before = 2`, start day 12, due on
day 10. -/
theorem shouldSendReminder_period_start_iff_witness :
    shouldSendReminder ⟨"r2", "u1", "period_start", ⟨none, some 2, none, none⟩, true⟩
      (some ⟨12, 16, none, none⟩) 10 = true :=
  (shouldSendReminder_period_start_iff _ _ _ rfl rfl).2 (by decide)

/-! ## C9: custom reminder messages -/

/-- A reminder whose custom message is present but empty. -/
def emptyMessageReminder : Reminder :=
  ⟨"r3", "u1", "medication", ⟨none, none, none, some ""⟩, true⟩

/-- C9, counterexample: a custom message set to the empty string is falsy in
JS, so the composer returns the default template, not the message
verbatim. -/
theorem generateReminderMessage_empty_custom_fails :
    emptyMessageReminder.schedule_config.custom_message = some "" ∧
      generateReminderMessage emptyMessageReminder none ≠ "" := by
  refine ⟨rfl, by decide⟩

/-- C9 (amended): a *non-empty* custom message is returned verbatim, for
every reminder type and every (possibly absent) prediction. -/
theorem generateReminderMessage_custom_verbatim (r : Reminder) (p : Option Prediction)
    (msg : String) (hm : r.schedule_config.custom_message = some msg)
    (hne : msg ≠ "") : generateReminderMessage r p = msg := by
  unfold generateReminderMessage
  rw [hm]
  simp [hne]

/-- Witness for the amended C9 at a concrete reminder. -/
theorem generateReminderMessage_custom_verbatim_witness :
    generateReminderMessage
      ⟨"r4", "u1", "period_start", ⟨none, none, none, some "hello"⟩, true⟩ none = "hello" :=
  generateReminderMessage_custom_verbatim _ _ _ rfl (by decide)

/-! ## C10: multiple-cycle prediction -/

/-- The entry list analyzed at step `i` of `predictMultipleCycles`: the
original log with `i` synthetic medium-flow entries prepended, each dated at
the previous step's predicted `next_period_start`. -/
noncomputable def multiEntries (cycleEntries : List CycleEntry) (profile : UserProfile)
    (today : ℤ) : ℕ → List CycleEntry
  | 0 => cycleEntries
  | i + 1 =>
    ⟨(predictCycle (multiEntries cycleEntries profile today i) profile 90 today).next_period_start,
        some "medium"⟩ ::
      multiEntries cycleEntries profile today i

/-- Stepping `multiEntries` once is prepending the first synthetic entry. -/
theorem multiEntries_succ_shift (e : List CycleEntry) (p : UserProfile) (t : ℤ) :
    ∀ i, multiEntries e p t (i + 1) =
      multiEntries (⟨(predictCycle e p 90 t).next_period_start, some "medium"⟩ :: e) p t i
  | 0 => rfl
  | i + 1 => by
    conv_lhs => rw [multiEntries]
    rw [multiEntries_succ_shift e p t i]
    conv_rhs => rw [multiEntries]

/-- `predictMultipleCycles` as a map over step indices. -/
theorem predictMultipleCycles_eq_map :
    ∀ (n : ℕ) (e : List CycleEntry) (p : UserProfile) (t : ℤ),
      predictMultipleCycles e p n t =
        (List.range n).map fun i => predictCycle (multiEntries e p t i) p 90 t
  | 0, e, p, t => by simp [predictMultipleCycles]
  | n + 1, e, p, t => by
    simp only [predictMultipleCycles]
    rw [predictMultipleCycles_eq_map n
      (⟨(predictCycle e p 90 t).next_period_start, some "medium"⟩ :: e) p t]
    rw [List.range_succ_eq_map, List.map_cons, List.map_map]
    congr 1
    apply List.map_congr_left
    intro i _
    simp only [Function.comp_apply]
    rw [multiEntries_succ_shift]

/-- C10: `predictMultipleCycles` returns exactly `n` predictions; prediction
`i` is `predictCycle` (with the default 90-entry window) applied to the log
with `i` synthetic medium-flow entries prepended, each dated at the previous
prediction's `next_period_start` — in particular prediction 0 is
`predictCycle` of the original log. -/
theorem predictMultipleCycles_spec (e : List CycleEntry) (p : UserProfile)
    (n : ℕ) (t : ℤ) :
    (predictMultipleCycles e p n t).length = n ∧
      predictMultipleCycles e p n t =
        (List.range n).map fun i => predictCycle (multiEntries e p t i) p 90 t := by
  refine ⟨?_, predictMultipleCycles_eq_map n e p t⟩
  rw [predictMultipleCycles_eq_map n e p t]
  simp
